import Mathlib

/-!
Verification development for the insurance-claims processing pipeline
(`app/agent/graph.py`, `app/agent/tools.py`, `app/agent/state.py`,
`app/agent/prompts.py`, `app/database/vector_store.py`).

The Python code is shallowly embedded: JSON values become an inductive
type, `json.loads` becomes a fuel-based recursive-descent parser over
`List Char`, the two regex fallbacks of `extract_json` become explicit
search functions modelling Python `re.search` with lazy quantifiers, the
LLM and the vector store become an explicit `Oracle`, and the LangGraph
workflow becomes a composition of node functions over a `ClaimState`
record, mirroring the edges added in `create_claims_processing_graph`.
Python exceptions escaping a node are modelled with `Except String`.

Modelling conventions:
* Python `None`, a JSON `null` and an unset `TypedDict` key are
  conflated (`Option`/`Json.null`); in the source every state key is
  written before it is read, so the distinction is never observable.
* Python numbers (int and float) are conflated into `ℚ`; the pipeline
  only compares them, never computes with them, and the rendering of a
  number into a prompt string is an approximation (prompt text is fed to
  a universally quantified oracle, so its exact shape is never
  load-bearing in any theorem).
* Exception message strings (`str(e)`) are abbreviated to short tags
  such as "AttributeError"; no claim depends on their exact wording.
-/

/-- JSON values as decoded by Python `json.loads`: objects keep their
textual member order (Python dicts preserve insertion order). -/
inductive Json where
  | null : Json
  | bool : Bool → Json
  | num : ℚ → Json
  | str : String → Json
  | arr : List Json → Json
  | obj : List (String × Json) → Json
deriving Repr

/-- Python `dict.get(key)` on a decoded JSON object: the last binding of
a key wins, as with duplicate keys in `json.loads`. Returns `none` when
the key is absent (Python returns `None`). -/
def Json.get? (j : Json) (key : String) : Option Json :=
  match j with
  | .obj members => ((members.reverse).find? (fun kv => kv.1 = key)).map (fun kv => kv.2)
  | _ => none

/-- Python `dict.get(key, default)`: the stored value (even `null`) when
the key is present, the default otherwise. -/
def Json.getD (j : Json) (key : String) (default : Json) : Json :=
  match j.get? key with
  | some v => v
  | none => default

/-- Python truthiness of a decoded JSON value (`if value:`). -/
def truthy : Json → Bool
  | .null => false
  | .bool b => b
  | .num q => q ≠ 0
  | .str s => s ≠ ""
  | .arr l => ¬ l.isEmpty
  | .obj l => ¬ l.isEmpty

/-- JSON whitespace accepted by Python `json.loads` (space, tab,
newline, carriage return). -/
def isJsonWS (c : Char) : Bool :=
  c = ' ' || c = '\t' || c = '\n' || c = '\r'

/-- Whitespace matched by `\s` in Python `re` (ASCII fragment; the
pipeline's texts are ASCII). -/
def isRegexWS (c : Char) : Bool :=
  c = ' ' || c = '\t' || c = '\n' || c = '\r' || c = '\x0b' || c = '\x0c'

/-- Drop leading JSON whitespace, as the scanner inside `json.loads`. -/
def skipWS (l : List Char) : List Char := l.dropWhile isJsonWS

/-- Numeric value of a hexadecimal digit, for `\uXXXX` escapes. -/
def hexVal (c : Char) : Option Nat :=
  if '0' ≤ c ∧ c ≤ '9' then some (c.toNat - 48)
  else if 'a' ≤ c ∧ c ≤ 'f' then some (c.toNat - 87)
  else if 'A' ≤ c ∧ c ≤ 'F' then some (c.toNat - 55)
  else none

/-- Value of a run of decimal digits. -/
def digitsToNat (ds : List Char) : Nat :=
  ds.foldl (fun a c => a * 10 + (c.toNat - 48)) 0

/-- Body of a JSON string after the opening quote: consume characters
up to the closing quote, handling the escapes Python accepts and
rejecting raw control characters (Python `strict=True`). `\uXXXX`
escapes outside the valid `Char` range degrade to the default character
(surrogate-pair recombination is not modelled). Returns the decoded
characters and the remaining input. -/
def parseStringBody : List Char → Option (List Char × List Char)
  | [] => none
  | c :: t =>
    if c = '"' then some ([], t)
    else if c = '\\' then
      match t with
      | [] => none
      | e :: t2 =>
        if e = '"' then (parseStringBody t2).map (fun p => ('"' :: p.1, p.2))
        else if e = '\\' then (parseStringBody t2).map (fun p => ('\\' :: p.1, p.2))
        else if e = '/' then (parseStringBody t2).map (fun p => ('/' :: p.1, p.2))
        else if e = 'b' then (parseStringBody t2).map (fun p => ('\x08' :: p.1, p.2))
        else if e = 'f' then (parseStringBody t2).map (fun p => ('\x0c' :: p.1, p.2))
        else if e = 'n' then (parseStringBody t2).map (fun p => ('\n' :: p.1, p.2))
        else if e = 'r' then (parseStringBody t2).map (fun p => ('\r' :: p.1, p.2))
        else if e = 't' then (parseStringBody t2).map (fun p => ('\t' :: p.1, p.2))
        else if e = 'u' then
          match t2 with
          | h1 :: h2 :: h3 :: h4 :: t3 =>
            match hexVal h1, hexVal h2, hexVal h3, hexVal h4 with
            | some v1, some v2, some v3, some v4 =>
              (parseStringBody t3).map
                (fun p => (Char.ofNat (4096 * v1 + 256 * v2 + 16 * v3 + v4) :: p.1, p.2))
            | _, _, _, _ => none
          | _ => none
        else none
    else if c.toNat < 32 then none
    else (parseStringBody t).map (fun p => (c :: p.1, p.2))

/-- Magnitude part of a JSON number per the grammar used by Python's
`json` module: `(0|[1-9][0-9]*)(\.[0-9]+)?([eE][-+]?[0-9]+)?`, consuming
the longest match and leaving the rest (so `1.` parses as `1` leaving
`.`). The caller supplies the sign (1 or -1). -/
def parseNumMag (sign : ℤ) (l : List Char) : Option (ℚ × List Char) :=
  match l with
  | [] => none
  | c :: t =>
    if ¬ c.isDigit then none
    else
      let (ipart, rest) :=
        if c = '0' then ((0 : ℕ), t)
        else (digitsToNat ((c :: t).takeWhile Char.isDigit), (c :: t).dropWhile Char.isDigit)
      let (fracNum, fracLen, rest2) :=
        match rest with
        | '.' :: d :: t2 =>
          if d.isDigit then
            (digitsToNat ((d :: t2).takeWhile Char.isDigit),
             ((d :: t2).takeWhile Char.isDigit).length,
             (d :: t2).dropWhile Char.isDigit)
          else ((0 : ℕ), (0 : ℕ), rest)
        | _ => ((0 : ℕ), (0 : ℕ), rest)
      let (expVal, rest3) :=
        match rest2 with
        | e :: t3 =>
          if e = 'e' ∨ e = 'E' then
            match t3 with
            | '+' :: d :: t4 =>
              if d.isDigit then
                ((digitsToNat ((d :: t4).takeWhile Char.isDigit) : ℤ),
                 (d :: t4).dropWhile Char.isDigit)
              else ((0 : ℤ), rest2)
            | '-' :: d :: t4 =>
              if d.isDigit then
                (-(digitsToNat ((d :: t4).takeWhile Char.isDigit) : ℤ),
                 (d :: t4).dropWhile Char.isDigit)
              else ((0 : ℤ), rest2)
            | d :: t4 =>
              if d.isDigit then
                ((digitsToNat ((d :: t4).takeWhile Char.isDigit) : ℤ),
                 (d :: t4).dropWhile Char.isDigit)
              else ((0 : ℤ), rest2)
            | [] => ((0 : ℤ), rest2)
          else ((0 : ℤ), rest2)
        | [] => ((0 : ℤ), rest2)
      let mantissa : ℤ := sign * ((ipart : ℤ) * 10 ^ fracLen + (fracNum : ℤ))
      let value : ℚ :=
        if 0 ≤ expVal then mkRat (mantissa * 10 ^ expVal.toNat) (10 ^ fracLen)
        else mkRat mantissa (10 ^ fracLen * 10 ^ (-expVal).toNat)
      some (value, rest3)

/-- A JSON number with optional leading minus sign. -/
def parseNumber (l : List Char) : Option (Json × List Char) :=
  match l with
  | [] => none
  | c :: t =>
    if c = '-' then (parseNumMag (-1) t).map (fun p => (Json.num p.1, p.2))
    else if c.isDigit then (parseNumMag 1 (c :: t)).map (fun p => (Json.num p.1, p.2))
    else none

mutual

/-- Recursive-descent value parser modelling Python `json.loads`'s
scanner. The input starts at a non-whitespace position; fuel decreases
at every recursive call (the caller supplies enough for any input).
`NaN`/`Infinity` constants are not modelled (ℚ cannot hold them, and no
pipeline text contains them). -/
def parseValue : Nat → List Char → Option (Json × List Char)
  | 0, _ => none
  | _ + 1, [] => none
  | fuel + 1, c :: t =>
    if c = 'n' then
      if "ull".toList.isPrefixOf t then some (Json.null, t.drop 3) else none
    else if c = 't' then
      if "rue".toList.isPrefixOf t then some (Json.bool true, t.drop 3) else none
    else if c = 'f' then
      if "alse".toList.isPrefixOf t then some (Json.bool false, t.drop 4) else none
    else if c = '"' then
      (parseStringBody t).map (fun p => (Json.str p.1.asString, p.2))
    else if c = '[' then
      match skipWS t with
      | ']' :: r => some (Json.arr [], r)
      | t' => (parseElements fuel t').map (fun p => (Json.arr p.1, p.2))
    else if c = '{' then
      match skipWS t with
      | '}' :: r => some (Json.obj [], r)
      | t' => (parseMembers fuel t').map (fun p => (Json.obj p.1, p.2))
    else parseNumber (c :: t)
  termination_by structural fuel => fuel

/-- Non-empty comma-separated array elements, each preceded by optional
whitespace, ending at `]`. -/
def parseElements : Nat → List Char → Option (List Json × List Char)
  | 0, _ => none
  | fuel + 1, l => do
    let (v, r) ← parseValue fuel l
    match skipWS r with
    | ',' :: r2 => (parseElements fuel (skipWS r2)).map (fun p => (v :: p.1, p.2))
    | ']' :: r2 => some ([v], r2)
    | _ => none
  termination_by structural fuel => fuel

/-- Non-empty comma-separated object members (`"key": value`), ending
at `}`. Keys must be strings, as in Python. -/
def parseMembers : Nat → List Char → Option (List (String × Json) × List Char)
  | 0, _ => none
  | fuel + 1, l =>
    match l with
    | '"' :: t => do
      let (k, r) ← parseStringBody t
      match skipWS r with
      | ':' :: r2 => do
        let (v, r3) ← parseValue fuel (skipWS r2)
        match skipWS r3 with
        | ',' :: r4 =>
          (parseMembers fuel (skipWS r4)).map (fun p => ((k.asString, v) :: p.1, p.2))
        | '}' :: r4 => some ([(k.asString, v)], r4)
        | _ => none
      | _ => none
    | _ => none
  termination_by structural fuel => fuel

end

/-- Python `json.loads`: skip leading whitespace, decode one value, and
require only whitespace to remain (`Extra data` otherwise). `none`
models a raised `JSONDecodeError`. -/
def loads (text : List Char) : Option Json :=
  match parseValue (2 * text.length + 2) (skipWS text) with
  | some (v, rest) => if skipWS rest = [] then some v else none
  | none => none

/-- Shortest prefix of the input that ends at the first occurrence of
`cl` (the lazy `.*?` up to and including the closing delimiter). -/
def takeThroughFirst (cl : Char) : List Char → Option (List Char)
  | [] => none
  | c :: t => if c = cl then some [c] else (takeThroughFirst cl t).map (fun g => c :: g)

/-- Model of `re.search(r'(\{.*?\}|\[.*?\])', text, re.DOTALL)`: scan
positions left to right; at the first `{` (resp. `[`) followed somewhere
by `}` (resp. `]`), the lazy quantifier captures up to the first such
closer. Returns the captured group. -/
def braceSearch : List Char → Option (List Char)
  | [] => none
  | c :: t =>
    if c = '{' then
      match takeThroughFirst '}' t with
      | some body => some ('{' :: body)
      | none => braceSearch t
    else if c = '[' then
      match takeThroughFirst ']' t with
      | some body => some ('[' :: body)
      | none => braceSearch t
    else braceSearch t

/-- After the captured group, the fenced-block regex requires `\s*`
followed by a literal ` ``` `. -/
def closesFence (l : List Char) : Bool :=
  "```".toList.isPrefixOf (l.dropWhile isRegexWS)

/-- Lazy capture for the fenced-block regex: extend to the first `cl`
after which `\s*` then ` ``` ` matches; on anchor failure the lazy
quantifier extends past that closer to the next one. -/
def lazyGroup (cl : Char) : List Char → Option (List Char)
  | [] => none
  | c :: t =>
    if c = cl ∧ closesFence t then some [c]
    else (lazyGroup cl t).map (fun g => c :: g)

/-- Group match attempt after an opening ` ``` ` (and optional `json`
tag): `\s*` then a `{`- or `[`-delimited lazy group anchored by
`\s*` ` ``` `. -/
def fenceGroupAt (t : List Char) : Option (List Char) :=
  match t.dropWhile isRegexWS with
  | '{' :: r => (lazyGroup '}' r).map (fun g => '{' :: g)
  | '[' :: r => (lazyGroup ']' r).map (fun g => '[' :: g)
  | _ => none

/-- Model of
`re.search(r'```(?:json)?\s*(\{.*?\}|\[.*?\])\s*```', text, re.DOTALL)`:
scan for ` ``` `, greedily try the `json` tag first, then attempt the
group; on failure resume scanning one character later. Returns the
captured group. -/
def fenceSearch : List Char → Option (List Char)
  | [] => none
  | c :: t =>
    if "```".toList.isPrefixOf (c :: t) then
      let after := (c :: t).drop 3
      match (if "json".toList.isPrefixOf after then fenceGroupAt (after.drop 4) else none) with
      | some g => some g
      | none =>
        match fenceGroupAt after with
        | some g => some g
        | none => fenceSearch t
    else fenceSearch t

/-- `extract_json` from `app/agent/tools.py`: direct `json.loads`, then
the fenced-code-block regex, then the bare brace/bracket regex, raising
(`Except.error`) when everything fails. A failed `json.loads` on a
captured group re-raises `JSONDecodeError`, exactly as in the source
(those inner calls are not wrapped). -/
def extract_json (text : List Char) : Except String Json :=
  match loads text with
  | some v => .ok v
  | none =>
    match fenceSearch text with
    | some g =>
      match loads g with
      | some v => .ok v
      | none => .error "JSONDecodeError"
    | none =>
      match braceSearch text with
      | some g =>
        match loads g with
        | some v => .ok v
        | none => .error "JSONDecodeError"
      | none => .error ("Could not extract JSON from: " ++ text.asString)

/-- Rendering of a number for interpolation into text. Python prints
ints and floats differently (`5` vs `5.0`); both are `Json.num` here, so
this is an approximation. Prompt text is only ever consumed by a
universally quantified oracle, so the exact rendering is never
load-bearing. -/
def ratStr (q : ℚ) : String :=
  if q.den = 1 then toString q.num else toString q.num ++ "/" ++ toString q.den

mutual

/-- Python `repr` of a decoded JSON value (used when a container is
interpolated into an f-string/`format`); string escaping inside `repr`
is approximated by plain quoting. -/
def pyRepr : Json → String
  | .null => "None"
  | .bool b => if b then "True" else "False"
  | .num q => ratStr q
  | .str s => "'" ++ s ++ "'"
  | .arr l => "[" ++ pyReprList l ++ "]"
  | .obj l => "\x7b" ++ pyReprMembers l ++ "\x7d"

/-- Comma-separated `repr` of list elements. -/
def pyReprList : List Json → String
  | [] => ""
  | [v] => pyRepr v
  | v :: vs => pyRepr v ++ ", " ++ pyReprList vs

/-- Comma-separated `repr` of dict members. -/
def pyReprMembers : List (String × Json) → String
  | [] => ""
  | [(k, v)] => "'" ++ k ++ "': " ++ pyRepr v
  | (k, v) :: ms => "'" ++ k ++ "': " ++ pyRepr v ++ ", " ++ pyReprMembers ms

end

/-- Python `str()` of a decoded JSON value, as `str.format` applies to
interpolated arguments. -/
def pyStr : Json → String
  | .str s => s
  | j => pyRepr j

/-- `str()` of a state field that may be Python `None`. -/
def pyStrOpt : Option Json → String
  | none => "None"
  | some j => pyStr j

mutual

/-- `json.dumps` with default separators; string escaping is
approximated by quote/backslash escaping only (no `\uXXXX` escaping of
non-ASCII). Used for the `invoice_items` prompt argument. -/
def dumps : Json → String
  | .null => "null"
  | .bool b => if b then "true" else "false"
  | .num q => ratStr q
  | .str s => "\"" ++ (s.toList.map (fun c =>
      if c = '"' then "\\\"" else if c = '\\' then "\\\\" else String.mk [c])).foldl
      (fun a b => a ++ b) "" ++ "\""
  | .arr l => "[" ++ dumpsList l ++ "]"
  | .obj l => "\x7b" ++ dumpsMembers l ++ "\x7d"

/-- Comma-separated `json.dumps` of array elements. -/
def dumpsList : List Json → String
  | [] => ""
  | [v] => dumps v
  | v :: vs => dumps v ++ ", " ++ dumpsList vs

/-- Comma-separated `json.dumps` of object members. -/
def dumpsMembers : List (String × Json) → String
  | [] => ""
  | [(k, v)] => "\"" ++ k ++ "\": " ++ dumps v
  | (k, v) :: ms => "\"" ++ k ++ "\": " ++ dumps v ++ ", " ++ dumpsMembers ms

end

/-- Python string slice `s[:n]` (by code point, as Python does). -/
def pySlice (s : String) (n : Nat) : String := String.mk (s.toList.take n)

/-! Prompt templates from `app/agent/prompts.py`, as the `.format`
calls instantiate them (literal braces written with `\x7b`/`\x7d`). -/

/-- `PARSE_CLAIM_PROMPT.format(claim_json=...)`. -/
def PARSE_CLAIM_PROMPT (claim_json : String) : String :=
  "You are a claims processing assistant. Parse the following claim JSON and extract key information.\n\nClaim JSON:\n"
  ++ claim_json ++
  "\n\nExtract and return ONLY a JSON object with these fields:\n- claim_id: The claim identifier\n- policy_holder: Name of the policy holder\n- vendor_name: The service provider/vendor name\n- invoice_items: List of items claimed\n- claim_amount: Total claim amount\n\nReturn ONLY valid JSON, no explanations."

/-- `VALIDATE_CLAIM_PROMPT.format(...)`. -/
def VALIDATE_CLAIM_PROMPT (claim_id policy_holder vendor_name claim_amount : String) : String :=
  "You are a claims validation assistant. Determine if the following claim is valid.\n\nClaim Details:\n- Claim ID: "
  ++ claim_id ++ "\n- Policy Holder: " ++ policy_holder ++ "\n- Vendor: " ++ vendor_name
  ++ "\n- Amount: $" ++ claim_amount ++
  "\n\nA claim is VALID if:\n1. All required fields are present\n2. Claim amount is greater than 0\n3. Vendor name is not empty\n4. Policy holder is identified\n\nReturn ONLY a JSON object:\n\x7b\n  \"is_valid\": true/false,\n  \"reason\": \"explanation if invalid, empty string if valid\"\n\x7d"

/-- `GENERATE_POLICY_QUERIES_PROMPT.format(...)`. -/
def GENERATE_POLICY_QUERIES_PROMPT (vendor_name invoice_items claim_amount : String) : String :=
  "You are a policy research assistant. Generate search queries to retrieve relevant policy information.\n\nClaim Details:\n- Vendor: "
  ++ vendor_name ++ "\n- Items: " ++ invoice_items ++ "\n- Amount: $" ++ claim_amount ++
  "\n\nGenerate 2-3 specific search queries to find relevant policy sections about:\n- Coverage for these types of services\n- Vendor requirements\n- Claim amount limits\n\nReturn ONLY a JSON array of query strings:\n[\"query 1\", \"query 2\", \"query 3\"]"

/-- `GENERATE_RECOMMENDATION_PROMPT.format(...)`. -/
def GENERATE_RECOMMENDATION_PROMPT
    (claim_id vendor_name claim_amount invoice_items policy_text : String) : String :=
  "You are a claims adjudication assistant. Based on the policy information and claim details, provide a recommendation.\n\nClaim Details:\n- Claim ID: "
  ++ claim_id ++ "\n- Vendor: " ++ vendor_name ++ "\n- Amount: $" ++ claim_amount
  ++ "\n- Items: " ++ invoice_items ++ "\n\nRelevant Policy Information:\n" ++ policy_text ++
  "\n\nAnalyze the claim against the policy and provide:\n1. Recommendation: APPROVE or DENY\n2. Reasoning: Detailed explanation\n\nReturn ONLY a JSON object:\n\x7b\n  \"recommendation\": \"APPROVE/DENY\",\n  \"reasoning\": \"detailed explanation based on policy\"\n\x7d"

/-- `FINALIZE_DECISION_PROMPT.format(...)`. -/
def FINALIZE_DECISION_PROMPT
    (claim_id recommendation recommendation_reasoning price_check_result : String) : String :=
  "You are a claims decision assistant. Based on all information, provide the final decision.\n\nClaim ID: "
  ++ claim_id ++ "\nInitial Recommendation: " ++ recommendation
  ++ "\nRecommendation Reasoning: " ++ recommendation_reasoning
  ++ "\nPrice Check Result: " ++ price_check_result ++
  "\n\nProvide a final decision considering:\n1. Policy compliance\n2. Price verification results\n3. Any red flags\n\nReturn ONLY a JSON object:\n\x7b\n  \"final_decision\": \"APPROVED/DENIED/REQUIRES_REVIEW\",\n  \"final_reasoning\": \"comprehensive explanation\"\n\x7d"

/-- The two external collaborators, as opaque functions: `llm` is
`ChatOpenAI.invoke` (the response's text content, or a raised exception
message), `retrieve` is `policy_store.retrieve(query, top_k)` from
`app/database/vector_store.py` (the joined text of the hits, `""` when
nothing is found, or a raised exception message). -/
structure Oracle where
  llm : String → Except String String
  retrieve : String → Nat → Except String String

/-- `parse_claim` from `app/agent/tools.py`. The logging line
`parsed_data.get('claim_id', 'N/A')` sits inside the `try`, so a
response decoding to a non-object raises `AttributeError` there and the
tool returns the `{"error": ...}` dictionary; hence the tool always
returns an object. -/
def parse_claim (o : Oracle) (claim_json : String) : Json :=
  match o.llm (PARSE_CLAIM_PROMPT claim_json) with
  | .error e => .obj [("error", .str e)]
  | .ok r =>
    match extract_json r.toList with
    | .ok j =>
      match j with
      | .obj _ => j
      | _ => .obj [("error", .str "AttributeError")]
    | .error e => .obj [("error", .str e)]

/-- The `VALIDATE_CLAIM_PROMPT.format(...)` call inside
`is_valid_query`. -/
def is_valid_query_prompt (claim_data : Json) : String :=
  VALIDATE_CLAIM_PROMPT
    (pyStr (claim_data.getD "claim_id" (.str "N/A")))
    (pyStr (claim_data.getD "policy_holder" (.str "N/A")))
    (pyStr (claim_data.getD "vendor_name" (.str "N/A")))
    (pyStr (claim_data.getD "claim_amount" (.num 0)))

/-- `is_valid_query` from `app/agent/tools.py`: on any exception
(collaborator failure, parse failure, or `.get` on a non-dict) it
returns `{"is_valid": False, "reason": "Validation error: ..."}`;
otherwise it returns the decoded object unchanged. -/
def is_valid_query (o : Oracle) (claim_data : Json) : Json :=
  match o.llm (is_valid_query_prompt claim_data) with
  | .error e => .obj [("is_valid", .bool false), ("reason", .str ("Validation error: " ++ e))]
  | .ok r =>
    match extract_json r.toList with
    | .ok j =>
      match j with
      | .obj _ => j
      | _ => .obj [("is_valid", .bool false),
                   ("reason", .str "Validation error: AttributeError")]
    | .error e => .obj [("is_valid", .bool false), ("reason", .str ("Validation error: " ++ e))]

/-- The `GENERATE_POLICY_QUERIES_PROMPT.format(...)` call inside
`generate_policy_queries`. -/
def generate_policy_queries_prompt (claim_data : Json) : String :=
  GENERATE_POLICY_QUERIES_PROMPT
    (pyStr (claim_data.getD "vendor_name" (.str "N/A")))
    (dumps (claim_data.getD "invoice_items" (.arr [])))
    (pyStr (claim_data.getD "claim_amount" (.num 0)))

/-- `generate_policy_queries` from `app/agent/tools.py`: decodes the
response; a dict is replaced by its `queries` entry (default `[]`); the
`len(queries)` logging line (inside the `try`) raises `TypeError` on
numbers, booleans and `None`, so those degrade to `[]`; every failure
path returns `[]`. The decoded value is returned without any length
truncation. -/
def generate_policy_queries (o : Oracle) (claim_data : Json) : Json :=
  match o.llm (generate_policy_queries_prompt claim_data) with
  | .error _ => .arr []
  | .ok r =>
    match extract_json r.toList with
    | .error _ => .arr []
    | .ok j =>
      let queries := match j with
        | .obj _ => j.getD "queries" (.arr [])
        | _ => j
      match queries with
      | .num _ => .arr []
      | .bool _ => .arr []
      | .null => .arr []
      | q => q

/-- Python iteration over the `queries` argument of
`retrieve_policy_text` (`for query in queries`): lists yield elements,
strings yield one-character strings, dicts yield their keys;
non-iterable values raise `TypeError`, which the tool catches. -/
def iterItems : Json → Option (List Json)
  | .arr l => some l
  | .str s => some (s.toList.map (fun c => Json.str (String.mk [c])))
  | .obj l => some (l.map (fun kv => Json.str kv.1))
  | _ => none

/-- The retrieval loop of `retrieve_policy_text`: each query is sent to
the collaborator with `top_k=3`; an empty result is skipped
(`if result:`); a raised exception anywhere aborts the whole loop
(`none`). A non-string query raises inside the loop before any further
result is kept: the slice `query[:60]` raises `TypeError` for numbers,
booleans, `None` and dicts, and ChromaDB rejects non-string
`query_texts`, so list-valued queries also raise. -/
def retrieve_loop (o : Oracle) : List Json → Option (List String)
  | [] => some []
  | .str q :: rest =>
    (match o.retrieve q 3 with
     | .error _ => none
     | .ok r => (retrieve_loop o rest).map (fun l => if r = "" then l else r :: l))
  | _ :: _ => none

/-- `retrieve_policy_text` from `app/agent/tools.py`: run all queries,
join the non-empty results with the fixed delimiter, and return `""`
when any exception was raised (the `except` clause discards results
already fetched). -/
def retrieve_policy_text (o : Oracle) (queries : Json) : String :=
  match iterItems queries with
  | none => ""
  | some items =>
    match retrieve_loop o items with
    | none => ""
    | some results => String.intercalate "\n\n---\n\n" results

/-- The `GENERATE_RECOMMENDATION_PROMPT.format(...)` call inside
`generate_recommendation`; `policy_text` is the already-sliced text. -/
def generate_recommendation_prompt (claim_data : Json) (policy_text : String) : String :=
  GENERATE_RECOMMENDATION_PROMPT
    (pyStr (claim_data.getD "claim_id" (.str "N/A")))
    (pyStr (claim_data.getD "vendor_name" (.str "N/A")))
    (pyStr (claim_data.getD "claim_amount" (.num 0)))
    (dumps (claim_data.getD "invoice_items" (.arr [])))
    policy_text

/-- `generate_recommendation` from `app/agent/tools.py`: the prompt
receives only `policy_text[:2000]`; a `None` policy text raises
`TypeError` at that slice (inside the `try`); any failure returns
`{"recommendation": "ERROR", "reasoning": str(e)}`; the
`recommendation.get(...)` logging line makes non-object decodings fail
the same way. -/
def generate_recommendation (o : Oracle) (claim_data : Json) (policy_text : Option String) :
    Json :=
  match policy_text with
  | none => .obj [("recommendation", .str "ERROR"), ("reasoning", .str "TypeError")]
  | some t =>
    match o.llm (generate_recommendation_prompt claim_data (pySlice t 2000)) with
    | .error e => .obj [("recommendation", .str "ERROR"), ("reasoning", .str e)]
    | .ok r =>
      match extract_json r.toList with
      | .ok j =>
        match j with
        | .obj _ => j
        | _ => .obj [("recommendation", .str "ERROR"), ("reasoning", .str "AttributeError")]
      | .error e => .obj [("recommendation", .str "ERROR"), ("reasoning", .str e)]

/-- `finalize_decision` from `app/agent/tools.py`: any failure returns
`{"final_decision": "ERROR", "final_reasoning": str(e)}`; the
`final_decision.get(...)` logging line makes non-object decodings fail
the same way. -/
def finalize_decision (o : Oracle) (claim_data : Json)
    (recommendation recommendation_reasoning : Option Json)
    (price_check_result : Option String) : Json :=
  let prompt := FINALIZE_DECISION_PROMPT
    (pyStr (claim_data.getD "claim_id" (.str "N/A")))
    (pyStrOpt recommendation)
    (pyStrOpt recommendation_reasoning)
    (pyStrOpt (price_check_result.map Json.str))
  match o.llm prompt with
  | .error e => .obj [("final_decision", .str "ERROR"), ("final_reasoning", .str e)]
  | .ok r =>
    match extract_json r.toList with
    | .ok j =>
      match j with
      | .obj _ => j
      | _ => .obj [("final_decision", .str "ERROR"), ("final_reasoning", .str "AttributeError")]
    | .error e => .obj [("final_decision", .str "ERROR"), ("final_reasoning", .str e)]

/-- `ClaimState` from `app/agent/state.py`. In the source this is a
`TypedDict` whose keys are written before they are read along every
graph path, so an unset key and a key holding `None` are conflated into
`none`. Fields that only ever receive values of a fixed shape keep a
narrower type: `retrieved_policy_text` (the tool always returns a
string), `price_check_result` (set to one of two literals by
`price_check_node`), `current_step`. -/
structure ClaimState where
  claim_json : String
  claim_id : Option Json := none
  invoice_items : Option Json := none
  vendor_name : Option Json := none
  claim_amount : Option Json := none
  policy_holder : Option Json := none
  is_valid : Option Json := none
  validation_reason : Option Json := none
  policy_queries : Option Json := none
  retrieved_policy_text : Option String := none
  recommendation : Option Json := none
  recommendation_reasoning : Option Json := none
  price_check_result : Option String := none
  final_decision : Option Json := none
  final_reasoning : Option Json := none
  current_step : String := "initialized"
deriving Repr

/-- The graph's nodes, as added in `create_claims_processing_graph`. -/
inductive Node where
  | parse_claim
  | validate_claim
  | generate_queries
  | retrieve_policy
  | recommendation
  | price_check
  | finalize_decision
  | invalid_claim
deriving Repr, DecidableEq

/-- Node 1: `parse_claim_node` from `app/agent/graph.py`. The tool
always returns an object (see `parse_claim`), whose fields are read
with `.get` (default `None`). -/
def parse_claim_node (o : Oracle) (st : ClaimState) : ClaimState :=
  let result := parse_claim o st.claim_json
  { st with
    claim_id := result.get? "claim_id"
    policy_holder := result.get? "policy_holder"
    vendor_name := result.get? "vendor_name"
    invoice_items := result.get? "invoice_items"
    claim_amount := result.get? "claim_amount"
    current_step := "parsed" }

/-- The `claim_data` dictionary built inside `validate_claim_node`. -/
def validate_claim_data (st : ClaimState) : Json :=
  .obj [("claim_id", (st.claim_id).getD .null),
        ("policy_holder", (st.policy_holder).getD .null),
        ("vendor_name", (st.vendor_name).getD .null),
        ("claim_amount", (st.claim_amount).getD .null)]

/-- Node 2: `validate_claim_node` from `app/agent/graph.py`:
`is_valid = result.get("is_valid", False)`,
`validation_reason = result.get("reason", "")`. -/
def validate_claim_node (o : Oracle) (st : ClaimState) : ClaimState :=
  let result := is_valid_query o (validate_claim_data st)
  { st with
    is_valid := some (result.getD "is_valid" (.bool false))
    validation_reason := some (result.getD "reason" (.str ""))
    current_step := "validated" }

/-- The `claim_data` dictionary built inside `generate_queries_node`. -/
def generate_queries_claim_data (st : ClaimState) : Json :=
  .obj [("vendor_name", (st.vendor_name).getD .null),
        ("invoice_items", (st.invoice_items).getD .null),
        ("claim_amount", (st.claim_amount).getD .null)]

/-- Node 3: `generate_queries_node` from `app/agent/graph.py`. -/
def generate_queries_node (o : Oracle) (st : ClaimState) : ClaimState :=
  let queries := generate_policy_queries o (generate_queries_claim_data st)
  { st with
    policy_queries := some queries
    current_step := "queries_generated" }

/-- Node 4: `retrieve_policy_node` from `app/agent/graph.py`. -/
def retrieve_policy_node (o : Oracle) (st : ClaimState) : ClaimState :=
  let policy_text := retrieve_policy_text o ((st.policy_queries).getD .null)
  { st with
    retrieved_policy_text := some policy_text
    current_step := "policy_retrieved" }

/-- The `claim_data` dictionary built inside `recommendation_node`. -/
def recommendation_claim_data (st : ClaimState) : Json :=
  .obj [("claim_id", (st.claim_id).getD .null),
        ("vendor_name", (st.vendor_name).getD .null),
        ("claim_amount", (st.claim_amount).getD .null),
        ("invoice_items", (st.invoice_items).getD .null)]

/-- Node 5: `recommendation_node` from `app/agent/graph.py`: the tool
always returns an object; its fields are read with `.get`
(default `None`). -/
def recommendation_node (o : Oracle) (st : ClaimState) : ClaimState :=
  let result := generate_recommendation o (recommendation_claim_data st)
    st.retrieved_policy_text
  { st with
    recommendation := result.get? "recommendation"
    recommendation_reasoning := result.get? "reasoning"
    current_step := "recommendation_generated" }

/-- Node 6: `price_check_node` from `app/agent/graph.py`:
`claim_amount = state["claim_amount"] or 0` (Python truthiness), then
`claim_amount > 10000`. Comparing a truthy non-number with `10000`
raises `TypeError`, which no handler catches, so the node is the one
place an exception can escape a node (`Except.error`). A truthy boolean
is Python `True`, i.e. the integer 1, which is `≤ 10000`. -/
def price_check_node (st : ClaimState) : Except String ClaimState :=
  let amount : Json := match st.claim_amount with
    | none => .num 0
    | some j => if truthy j then j else .num 0
  match amount with
  | .num q =>
    if q > 10000 then
      .ok { st with price_check_result := some "HIGH_AMOUNT_FLAGGED",
                    current_step := "price_checked" }
    else
      .ok { st with price_check_result := some "WITHIN_NORMAL_RANGE",
                    current_step := "price_checked" }
  | .bool _ =>
    .ok { st with price_check_result := some "WITHIN_NORMAL_RANGE",
                  current_step := "price_checked" }
  | _ => .error "TypeError"

/-- The `claim_data` dictionary built inside `finalize_decision_node`. -/
def finalize_claim_data (st : ClaimState) : Json :=
  .obj [("claim_id", (st.claim_id).getD .null)]

/-- Node 7: `finalize_decision_node` from `app/agent/graph.py`. -/
def finalize_decision_node (o : Oracle) (st : ClaimState) : ClaimState :=
  let result := finalize_decision o (finalize_claim_data st)
    st.recommendation st.recommendation_reasoning st.price_check_result
  { st with
    final_decision := result.get? "final_decision"
    final_reasoning := result.get? "final_reasoning"
    current_step := "completed" }

/-- Terminal node for invalid claims: `invalid_claim_node` from
`app/agent/graph.py`. No collaborator call; copies the validation
reason. -/
def invalid_claim_node (st : ClaimState) : ClaimState :=
  { st with
    final_decision := some (.str "INVALID")
    final_reasoning := st.validation_reason
    current_step := "completed" }

/-- Python truthiness of `state["is_valid"]` (an unset key would raise
in Python but is never read unset; `none` here only models `None`). -/
def truthyOpt : Option Json → Bool
  | none => false
  | some j => truthy j

/-- `should_continue_after_validation` from `app/agent/graph.py`:
`if state["is_valid"]: return "continue" else: return "invalid"`. -/
def should_continue_after_validation (st : ClaimState) : String :=
  if truthyOpt st.is_valid then "continue" else "invalid"

/-- One invocation of the compiled workflow built by
`create_claims_processing_graph`: entry `parse_claim`, then
`validate_claim`; the conditional edge maps `"continue"` to
`generate_queries` and `"invalid"` to `invalid_claim`; the accept
branch chains `generate_queries → retrieve_policy → recommendation →
price_check → finalize_decision → END`, and `invalid_claim → END`.
Returns the list of nodes that executed together with the final state,
or the uncaught exception (in which case the trace still lists the
nodes that ran, the raising node included). -/
def claims_graph_invoke (o : Oracle) (st0 : ClaimState) :
    List Node × Except String ClaimState :=
  let st1 := parse_claim_node o st0
  let st2 := validate_claim_node o st1
  if should_continue_after_validation st2 = "continue" then
    let st3 := generate_queries_node o st2
    let st4 := retrieve_policy_node o st3
    let st5 := recommendation_node o st4
    match price_check_node st5 with
    | .error e =>
      ([.parse_claim, .validate_claim, .generate_queries, .retrieve_policy,
        .recommendation, .price_check], .error e)
    | .ok st6 =>
      let st7 := finalize_decision_node o st6
      ([.parse_claim, .validate_claim, .generate_queries, .retrieve_policy,
        .recommendation, .price_check, .finalize_decision], .ok st7)
  else
    ([.parse_claim, .validate_claim, .invalid_claim], .ok (invalid_claim_node st2))

/-- `process_claim` from `app/main.py`: the initial state holds only
the raw claim JSON and `current_step = "initialized"`. -/
def process_claim (o : Oracle) (claim_json : String) :
    List Node × Except String ClaimState :=
  claims_graph_invoke o { claim_json := claim_json }

/-! ## Theorems -/

/-- Characterization of the `price_check_result` produced by
`price_check_node` as a function of `claim_amount` alone. -/
theorem price_check_node_pcr (st : ClaimState) :
    (price_check_node st).map ClaimState.price_check_result =
      match (match st.claim_amount with
             | none => Json.num 0
             | some j => if truthy j then j else Json.num 0) with
      | .num q => .ok (some (if q > 10000 then "HIGH_AMOUNT_FLAGGED" else "WITHIN_NORMAL_RANGE"))
      | .bool _ => .ok (some "WITHIN_NORMAL_RANGE")
      | _ => .error "TypeError" := by
  have h0 : ¬ ((0:ℚ) > 10000) := by norm_num
  unfold price_check_node
  rcases st.claim_amount with _ | j
  · simp only [h0, if_neg, not_false_eq_true]
    rfl
  · by_cases h : truthy j
    · simp only [h, if_true]
      cases j <;> simp only [] <;> first | rfl | (split_ifs <;> rfl)
    · simp only []
      rw [if_neg h]
      simp only [h0, if_neg, not_false_eq_true]
      rfl

/-- C3: the price-check stage is a pure deterministic function of
`claimAmount` with no collaborator call (`price_check_node` takes no
`Oracle`, and its result depends only on the `claim_amount` field):
`priceCheckResult = HIGH_AMOUNT_FLAGGED` iff `claimAmount > 10000`,
otherwise `WITHIN_NORMAL_RANGE`; the boundary `claimAmount = 10000`
yields `WITHIN_NORMAL_RANGE`. -/
theorem price_check_spec :
    (∀ st st2 : ClaimState, st.claim_amount = st2.claim_amount →
      (price_check_node st).map ClaimState.price_check_result
        = (price_check_node st2).map ClaimState.price_check_result) ∧
    (∀ (st : ClaimState) (q : ℚ), st.claim_amount = some (.num q) →
      (price_check_node st).map ClaimState.price_check_result
        = .ok (some (if q > 10000 then "HIGH_AMOUNT_FLAGGED" else "WITHIN_NORMAL_RANGE")) ∧
      ((price_check_node st).map ClaimState.price_check_result
          = .ok (some "HIGH_AMOUNT_FLAGGED") ↔ q > 10000)) ∧
    (∀ st : ClaimState, st.claim_amount = some (.num 10000) →
      (price_check_node st).map ClaimState.price_check_result
        = .ok (some "WITHIN_NORMAL_RANGE")) := by
  have key : ∀ (st : ClaimState) (q : ℚ), st.claim_amount = some (.num q) →
      (price_check_node st).map ClaimState.price_check_result
        = .ok (some (if q > 10000 then "HIGH_AMOUNT_FLAGGED" else "WITHIN_NORMAL_RANGE")) := by
    intro st q h
    rw [price_check_node_pcr, h]
    simp only []
    by_cases hq : q = 0
    · subst hq
      norm_num [truthy]
    · have : truthy (Json.num q) = true := by simp [truthy, hq]
      rw [this]
      simp only [if_true]
  refine ⟨?_, ?_, ?_⟩
  · intro st st2 h
    rw [price_check_node_pcr, price_check_node_pcr, h]
  · intro st q h
    refine ⟨key st q h, ?_⟩
    rw [key st q h]
    by_cases hq : q > 10000
    · simp [hq]
    · simp only [hq, if_neg, not_false_eq_true, iff_false]
      intro hcontra
      simp at hcontra
  · intro st h
    rw [key st 10000 h]
    norm_num

/-- Witness for C3 at concrete amounts 15000 (flagged) and 10000
(boundary, not flagged). -/
theorem price_check_spec_witness :
    (price_check_node { claim_json := "", claim_amount := some (.num 15000) }).map
        ClaimState.price_check_result = .ok (some "HIGH_AMOUNT_FLAGGED") ∧
    (price_check_node { claim_json := "", claim_amount := some (.num 10000) }).map
        ClaimState.price_check_result = .ok (some "WITHIN_NORMAL_RANGE") := by
  constructor
  · exact (price_check_spec.2.1 _ 15000 rfl).2.mpr (by norm_num)
  · exact price_check_spec.2.2 _ rfl

/-- C9: a missing (`None`/unset) `claimAmount` at the price-check stage
is treated as 0 (`state["claim_amount"] or 0`), so the result is
`WITHIN_NORMAL_RANGE` and the stage does not raise. -/
theorem price_check_missing_amount (st : ClaimState) (h : st.claim_amount = none) :
    price_check_node st = .ok { st with price_check_result := some "WITHIN_NORMAL_RANGE",
                                        current_step := "price_checked" } := by
  have h0 : ¬ ((0:ℚ) > 10000) := by norm_num
  unfold price_check_node
  rw [h]
  simp only [h0, if_neg, not_false_eq_true]

/-- Witness for C9 on a fresh state with no amount. -/
theorem price_check_missing_amount_witness :
    price_check_node { claim_json := "" }
      = .ok { claim_json := "", price_check_result := some "WITHIN_NORMAL_RANGE",
              current_step := "price_checked" } :=
  price_check_missing_amount _ rfl

/-- A successful `price_check_node` only writes `price_check_result`
and `current_step`; in particular it preserves `final_decision`. -/
theorem price_check_node_ok_preserves (s s2 : ClaimState) (h : price_check_node s = .ok s2) :
    s2.final_decision = s.final_decision ∧
    s2.retrieved_policy_text = s.retrieved_policy_text ∧
    s2.recommendation = s.recommendation ∧
    s2.current_step = "price_checked" := by
  unfold price_check_node at h
  simp only [] at h
  split at h
  · split_ifs at h <;> (injection h with h2; rw [← h2]; exact ⟨rfl, rfl, rfl, rfl⟩)
  · injection h with h2
    rw [← h2]
    exact ⟨rfl, rfl, rfl, rfl⟩
  · cases h

/-- An oracle whose completion service fails on every call. -/
def outageOracle : Oracle :=
  { llm := fun _ => .error "LLM unavailable", retrieve := fun _ _ => .error "store unavailable" }

/-- C1: for every run reaching validation, `isValid = true` routes to
query generation, while `isValid = false` or missing routes directly to
the `invalid_claim` terminal, which sets `finalDecision = INVALID` and
copies `validationReason` into `finalReasoning`. -/
theorem validation_branch (o : Oracle) (st0 st2 : ClaimState)
    (h2 : validate_claim_node o (parse_claim_node o st0) = st2) :
    (st2.is_valid = some (.bool true) →
      (claims_graph_invoke o st0).1.take 3
        = [.parse_claim, .validate_claim, .generate_queries]) ∧
    (st2.is_valid = some (.bool false) ∨ st2.is_valid = none →
      claims_graph_invoke o st0
        = ([.parse_claim, .validate_claim, .invalid_claim],
           .ok { st2 with final_decision := some (.str "INVALID"),
                          final_reasoning := st2.validation_reason,
                          current_step := "completed" })) := by
  constructor
  · intro h
    have hr : should_continue_after_validation st2 = "continue" := by
      unfold should_continue_after_validation
      rw [h]
      rfl
    unfold claims_graph_invoke
    simp only [h2, hr, reduceIte]
    cases price_check_node (recommendation_node o (retrieve_policy_node o
      (generate_queries_node o st2))) <;> rfl
  · intro h
    have hr : should_continue_after_validation st2 = "invalid" := by
      unfold should_continue_after_validation
      rcases h with h | h <;> rw [h] <;> rfl
    unfold claims_graph_invoke
    simp only [h2, hr]
    rfl

/-- Witness for C1: with an all-failing completion service the
validation verdict is `false` and the run takes the reject route. -/
theorem validation_branch_witness :
    (claims_graph_invoke outageOracle { claim_json := "[]" }).1
      = [.parse_claim, .validate_claim, .invalid_claim] := by
  have h := (validation_branch outageOracle { claim_json := "[]" }
      (validate_claim_node outageOracle (parse_claim_node outageOracle { claim_json := "[]" }))
      rfl).2 (Or.inl rfl)
  rw [h]

/-- An oracle whose completion service declares the claim valid but
reports the claim amount as the string `"x"`. The parse node stores
that string into `claim_amount`, so the price-check stage compares a
string with `10000` and raises an uncaught `TypeError` — the one
exception the controller does not catch. -/
def badAmountOracle : Oracle :=
  { llm := fun _ => .ok "\x7b\"is_valid\": true, \"claim_amount\": \"x\"\x7d",
    retrieve := fun _ _ => .ok "" }

/-- Counterexample to C2: with a collaborator response carrying a
truthy non-numeric `claim_amount`, the run aborts at the price-check
stage with an uncaught `TypeError`; neither the finalize stage nor the
reject stage executes, and `final_decision` is never assigned — so the
invariant fails for this run. -/
theorem one_terminal_cex :
    (claims_graph_invoke badAmountOracle { claim_json := "" }).2 = .error "TypeError" ∧
    (claims_graph_invoke badAmountOracle { claim_json := "" }).1.count Node.finalize_decision
      = 0 ∧
    (claims_graph_invoke badAmountOracle { claim_json := "" }).1.count Node.invalid_claim
      = 0 :=
  ⟨rfl, rfl, rfl⟩

/-- C2 amended: in every run that completes without an uncaught
exception, exactly one of the finalize stage and the reject stage
executes and it is the last stage to run; in a run aborted by the
price-check `TypeError`, neither executes. No node other than those two
assigns `final_decision` (each of the other six preserves the field),
so `finalDecision` is assigned exactly once in a completed run — and
never, rather than once, in an aborted one. -/
theorem one_terminal_per_run (o : Oracle) (st0 : ClaimState) :
    (∀ st : ClaimState, (claims_graph_invoke o st0).2 = .ok st →
      ((claims_graph_invoke o st0).1.count Node.finalize_decision
        + (claims_graph_invoke o st0).1.count Node.invalid_claim = 1) ∧
      ((claims_graph_invoke o st0).1.getLast? = some Node.finalize_decision ∨
       (claims_graph_invoke o st0).1.getLast? = some Node.invalid_claim)) ∧
    (∀ e : String, (claims_graph_invoke o st0).2 = .error e →
      (claims_graph_invoke o st0).1.count Node.finalize_decision
        + (claims_graph_invoke o st0).1.count Node.invalid_claim = 0) ∧
    (∀ (o2 : Oracle) (s : ClaimState), (parse_claim_node o2 s).final_decision
      = s.final_decision) ∧
    (∀ (o2 : Oracle) (s : ClaimState), (validate_claim_node o2 s).final_decision
      = s.final_decision) ∧
    (∀ (o2 : Oracle) (s : ClaimState), (generate_queries_node o2 s).final_decision
      = s.final_decision) ∧
    (∀ (o2 : Oracle) (s : ClaimState), (retrieve_policy_node o2 s).final_decision
      = s.final_decision) ∧
    (∀ (o2 : Oracle) (s : ClaimState), (recommendation_node o2 s).final_decision
      = s.final_decision) ∧
    (∀ s s2 : ClaimState, price_check_node s = .ok s2 → s2.final_decision
      = s.final_decision) := by
  refine ⟨?_, ?_, fun _ _ => rfl, fun _ _ => rfl, fun _ _ => rfl, fun _ _ => rfl, fun _ _ => rfl,
    fun s s2 hp => (price_check_node_ok_preserves s s2 hp).1⟩
  · intro st h
    unfold claims_graph_invoke at h ⊢
    by_cases hr : should_continue_after_validation
        (validate_claim_node o (parse_claim_node o st0)) = "continue"
    · simp only [hr, reduceIte] at h ⊢
      cases hpc : price_check_node (recommendation_node o (retrieve_policy_node o
          (generate_queries_node o (validate_claim_node o (parse_claim_node o st0))))) with
      | error e => rw [hpc] at h; cases h
      | ok s6 => exact ⟨rfl, Or.inl rfl⟩
    · simp only [hr, reduceIte]
      exact ⟨rfl, Or.inr rfl⟩
  · intro e h
    unfold claims_graph_invoke at h ⊢
    by_cases hr : should_continue_after_validation
        (validate_claim_node o (parse_claim_node o st0)) = "continue"
    · simp only [hr, reduceIte] at h ⊢
      cases hpc : price_check_node (recommendation_node o (retrieve_policy_node o
          (generate_queries_node o (validate_claim_node o (parse_claim_node o st0))))) with
      | error e2 => rfl
      | ok s6 => rw [hpc] at h; cases h
    · simp only [hr, reduceIte] at h
      cases h

/-- Witness for the amended C2 on a completed run (reject route under
an outage). -/
theorem one_terminal_per_run_witness :
    ((claims_graph_invoke outageOracle { claim_json := "[]" }).1.count Node.finalize_decision
      + (claims_graph_invoke outageOracle { claim_json := "[]" }).1.count Node.invalid_claim
      = 1) :=
  ((one_terminal_per_run outageOracle { claim_json := "[]" }).1
    (invalid_claim_node (validate_claim_node outageOracle
      (parse_claim_node outageOracle { claim_json := "[]" }))) rfl).1

/-- Counterexample to C5: with a completion service that fails on every
call, the run terminates with `finalDecision = INVALID` (the validation
stage degrades to an invalid verdict and the reject terminal runs), so
neither `recommendation = ERROR` nor `finalDecision = ERROR` holds. -/
theorem collaborator_outage_cex :
    ∃ st : ClaimState, (process_claim outageOracle "\x7b\x7d").2 = .ok st ∧
      st.final_decision = some (.str "INVALID") ∧ st.recommendation = none ∧
      ¬ (st.recommendation = some (.str "ERROR") ∨ st.final_decision = some (.str "ERROR")) := by
  refine ⟨_, rfl, rfl, rfl, ?_⟩
  intro h
  rcases h with h | h
  · exact Option.noConfusion h
  · injection h with h3
    injection h3 with h4
    exact absurd h4 (by decide)

/-- C5 amended: if the completion service fails on every call, every
run still terminates without an escaping exception, at the reject
terminal with `finalDecision = INVALID` (the recommendation stage never
runs, so `recommendation` stays unset rather than `ERROR`). -/
theorem collaborator_outage_amended (o : Oracle) (cj : String)
    (h : ∀ p, ∃ e, o.llm p = .error e) :
    ∃ st, process_claim o cj
        = ([.parse_claim, .validate_claim, .invalid_claim], .ok st) ∧
      st.final_decision = some (.str "INVALID") ∧
      st.recommendation = none ∧ st.current_step = "completed" := by
  obtain ⟨e2, he2⟩ := h (is_valid_query_prompt
    (validate_claim_data (parse_claim_node o { claim_json := cj })))
  have hval : is_valid_query o (validate_claim_data (parse_claim_node o { claim_json := cj }))
      = .obj [("is_valid", .bool false), ("reason", .str ("Validation error: " ++ e2))] := by
    unfold is_valid_query
    rw [he2]
  have hr : should_continue_after_validation
      (validate_claim_node o (parse_claim_node o { claim_json := cj })) = "invalid" := by
    have hst2 : (validate_claim_node o (parse_claim_node o { claim_json := cj })).is_valid
        = some (.bool false) := by
      unfold validate_claim_node
      rw [hval]
      rfl
    unfold should_continue_after_validation
    rw [hst2]
    rfl
  unfold process_claim claims_graph_invoke
  simp only [hr, reduceIte]
  exact ⟨_, rfl, rfl, rfl, rfl⟩

/-- Witness for the amended C5 with a concrete all-failing oracle. -/
theorem collaborator_outage_amended_witness :
    ∃ st, process_claim outageOracle ""
        = ([.parse_claim, .validate_claim, .invalid_claim], .ok st) ∧
      st.final_decision = some (.str "INVALID") ∧
      st.recommendation = none ∧ st.current_step = "completed" :=
  collaborator_outage_amended outageOracle "" (fun _ => ⟨"LLM unavailable", rfl⟩)

/-- C8: the recommendation stage passes at most the first 2000
characters of the retrieved policy text to the language-model
collaborator (the stage is invariant under truncating its policy text
to 2000 characters, because the prompt receives `policy_text[:2000]`),
and on a collaborator error it sets `recommendation = ERROR` with the
error message as the reasoning instead of raising. -/
theorem recommendation_spec :
    (∀ (o : Oracle) (cd : Json) (t : String),
      generate_recommendation o cd (some t)
        = generate_recommendation o cd (some (pySlice t 2000))) ∧
    (∀ (o : Oracle) (st : ClaimState) (t e : String),
      st.retrieved_policy_text = some t →
      o.llm (generate_recommendation_prompt (recommendation_claim_data st) (pySlice t 2000))
        = .error e →
      (recommendation_node o st).recommendation = some (.str "ERROR") ∧
      (recommendation_node o st).recommendation_reasoning = some (.str e)) := by
  constructor
  · intro o cd t
    unfold generate_recommendation
    have hslice : pySlice (pySlice t 2000) 2000 = pySlice t 2000 := by
      unfold pySlice
      simp [List.take_take]
    simp only []
    rw [hslice]
  · intro o st t e ht he
    unfold recommendation_node
    rw [ht]
    unfold generate_recommendation
    simp only []
    rw [he]
    exact ⟨rfl, rfl⟩

/-- Witness for C8: a failing collaborator yields the ERROR sentinel
with its message as the reasoning. -/
theorem recommendation_spec_witness :
    (recommendation_node outageOracle
        { claim_json := "", retrieved_policy_text := some "policy" }).recommendation
      = some (.str "ERROR") ∧
    (recommendation_node outageOracle
        { claim_json := "", retrieved_policy_text := some "policy" }).recommendation_reasoning
      = some (.str "LLM unavailable") :=
  recommendation_spec.2 outageOracle _ "policy" "LLM unavailable" rfl rfl

/-- C10: retrieval failure recovery is all-or-nothing: if the retrieval
collaborator raises on some query, the whole stage returns `""`,
discarding the results already fetched for the earlier queries
(`qs1`/`rs1`). -/
theorem retrieval_all_or_nothing (o : Oracle) (qs1 rs1 : List String) (q e : String)
    (qs2 : List Json)
    (h1 : List.Forall₂ (fun a r => o.retrieve a 3 = .ok r) qs1 rs1)
    (h2 : o.retrieve q 3 = .error e) :
    retrieve_policy_text o (.arr (qs1.map Json.str ++ Json.str q :: qs2)) = "" := by
  have hloop : retrieve_loop o (qs1.map Json.str ++ Json.str q :: qs2) = none := by
    induction h1 with
    | nil =>
      simp only [List.map_nil, List.nil_append]
      unfold retrieve_loop
      rw [h2]
    | cons ha _ ih =>
      simp only [List.map_cons, List.cons_append]
      unfold retrieve_loop
      rw [ha, ih]
      rfl
  unfold retrieve_policy_text
  simp only [iterItems]
  rw [hloop]

/-- A retrieval collaborator that succeeds on query "ok" and raises on
everything else. -/
def flakyStore : Oracle :=
  { llm := fun _ => .ok "",
    retrieve := fun q _ => if q = "ok" then .ok "hit" else .error "down" }

/-- Witness for C10: a successful fetch ("hit") is discarded when the
second query raises. -/
theorem retrieval_all_or_nothing_witness :
    retrieve_policy_text flakyStore (.arr [Json.str "ok", Json.str "bad"]) = "" :=
  retrieval_all_or_nothing flakyStore ["ok"] ["hit"] "bad" "down" []
    (List.Forall₂.cons rfl List.Forall₂.nil) rfl

/-- An oracle whose completion service validates every claim and
produces an empty query list. -/
def emptyQueriesOracle : Oracle :=
  { llm := fun _ => .ok "\x7b\"is_valid\": true, \"queries\": []\x7d",
    retrieve := fun _ _ => .ok "" }

/-- Counterexample to C6's "still reaches Finalized": a reachable
empty-query run (collaborator validates the claim but reports a truthy
non-numeric amount) has `policyQueries = []` and
`retrievedPolicyText = ""`, yet aborts at the price-check stage with an
uncaught `TypeError`; the finalize stage never executes. -/
theorem retrieval_finalized_cex :
    (claims_graph_invoke badAmountOracle { claim_json := "" }).2 = .error "TypeError" ∧
    (claims_graph_invoke badAmountOracle { claim_json := "" }).1.count Node.finalize_decision
      = 0 ∧
    (recommendation_node badAmountOracle (retrieve_policy_node badAmountOracle
        (generate_queries_node badAmountOracle (validate_claim_node badAmountOracle
          (parse_claim_node badAmountOracle { claim_json := "" }))))).policy_queries
      = some (.arr []) ∧
    (recommendation_node badAmountOracle (retrieve_policy_node badAmountOracle
        (generate_queries_node badAmountOracle (validate_claim_node badAmountOracle
          (parse_claim_node badAmountOracle { claim_json := "" }))))).retrieved_policy_text
      = some "" :=
  ⟨rfl, rfl, rfl, rfl⟩

/-- C6 amended: the retrieval stage fetches top-3 matches per query
(only the collaborator's answers at `top_k = 3` are ever consulted),
concatenates the non-empty per-query results in query order with the
fixed delimiter and skips empty results; for the empty query list it
yields `retrievedPolicyText = ""` and the run reaches the `Finalized`
terminal provided the price-check stage does not raise — its uncaught
`TypeError` on a truthy non-numeric `claimAmount` is the one way an
accept-branch run can die before `Finalized`. -/
theorem retrieval_spec :
    (∀ o : Oracle, retrieve_policy_text o (.arr []) = "") ∧
    (∀ (o : Oracle) (qs rs : List String),
      List.Forall₂ (fun a r => o.retrieve a 3 = .ok r) qs rs →
      retrieve_policy_text o (.arr (qs.map Json.str))
        = String.intercalate "\n\n---\n\n" (rs.filter (fun r => r ≠ ""))) ∧
    (∀ o o2 : Oracle, (∀ a, o.retrieve a 3 = o2.retrieve a 3) →
      ∀ queries, retrieve_policy_text o queries = retrieve_policy_text o2 queries) ∧
    (∀ (o : Oracle) (st0 st6 : ClaimState),
      should_continue_after_validation (validate_claim_node o (parse_claim_node o st0))
        = "continue" →
      generate_policy_queries o (generate_queries_claim_data
        (validate_claim_node o (parse_claim_node o st0))) = .arr [] →
      price_check_node (recommendation_node o (retrieve_policy_node o (generate_queries_node o
        (validate_claim_node o (parse_claim_node o st0))))) = .ok st6 →
      (claims_graph_invoke o st0).1 = [.parse_claim, .validate_claim, .generate_queries,
        .retrieve_policy, .recommendation, .price_check, .finalize_decision] ∧
      ∃ st7, (claims_graph_invoke o st0).2 = .ok st7 ∧
        st7.retrieved_policy_text = some "" ∧ st7.current_step = "completed") := by
  refine ⟨fun o => rfl, ?_, ?_, ?_⟩
  · intro o qs rs h
    have hloop : retrieve_loop o (qs.map Json.str) = some (rs.filter (fun r => r ≠ "")) := by
      induction h with
      | nil => rfl
      | @cons a b l1 l2 ha hrest ih =>
        simp only [List.map_cons]
        unfold retrieve_loop
        rw [ha, ih]
        by_cases hb : b = ""
        · subst hb
          simp [List.filter_cons]
        · simp [List.filter_cons, hb]
    unfold retrieve_policy_text
    simp only [iterItems]
    rw [hloop]
  · intro o o2 h queries
    have hloop : ∀ items, retrieve_loop o items = retrieve_loop o2 items := by
      intro items
      induction items with
      | nil => rfl
      | cons x rest ih =>
        cases x with
        | str q =>
          unfold retrieve_loop
          rw [h q, ih]
        | null => rfl
        | bool b => rfl
        | num n => rfl
        | arr l => rfl
        | obj m => rfl
    unfold retrieve_policy_text
    cases hit : iterItems queries with
    | none => rfl
    | some items =>
      simp only []
      rw [hloop items]
  · intro o st0 st6 hr hq hpc
    have h4 : (retrieve_policy_node o (generate_queries_node o
        (validate_claim_node o (parse_claim_node o st0)))).retrieved_policy_text
        = some "" := by
      unfold retrieve_policy_node generate_queries_node
      simp only []
      rw [hq]
      rfl
    constructor
    · unfold claims_graph_invoke
      simp only [hr, reduceIte]
      rw [hpc]
    · refine ⟨finalize_decision_node o st6, ?_, ?_, rfl⟩
      · unfold claims_graph_invoke
        simp only [hr, reduceIte]
        rw [hpc]
      · have hfin : (finalize_decision_node o st6).retrieved_policy_text
            = st6.retrieved_policy_text := rfl
        rw [hfin, (price_check_node_ok_preserves _ _ hpc).2.1]
        exact h4

/-- Witness for the amended C6: with a valid claim, an empty query
list and a non-raising price check, the run executes all seven
accept-branch nodes. -/
theorem retrieval_spec_witness :
    (claims_graph_invoke emptyQueriesOracle { claim_json := "" }).1
      = [.parse_claim, .validate_claim, .generate_queries, .retrieve_policy, .recommendation,
         .price_check, .finalize_decision] :=
  (retrieval_spec.2.2.2 emptyQueriesOracle { claim_json := "" } _ rfl rfl rfl).1

/-- An oracle whose completion service always answers with a four-entry
JSON array. -/
def fourQueriesOracle : Oracle :=
  { llm := fun _ => .ok "[\"a\", \"b\", \"c\", \"d\"]", retrieve := fun _ _ => .ok "" }

/-- Counterexample to C7: the query-generation stage performs no length
truncation, so a collaborator response decoding to four query strings
leaves `policyQueries` with 4 entries, outside the claimed 0–3 range. -/
theorem policy_queries_cex :
    ∃ l : List Json,
      (generate_queries_node fourQueriesOracle { claim_json := "" }).policy_queries
        = some (.arr l) ∧ l.length = 4 ∧ ¬ (l.length ≤ 3) :=
  ⟨[.str "a", .str "b", .str "c", .str "d"], rfl, rfl, by decide⟩

/-- C7 amended: after the query-generation stage `policyQueries` holds
exactly the sequence decoded from the collaborator response (the
response array itself, or its `queries` field; `[]` on a collaborator
error); it has 0–3 entries whenever that decoded sequence has at most 3
entries, but the stage itself imposes no upper bound. -/
theorem policy_queries_amended (o : Oracle) (st : ClaimState) :
    ((∃ e, o.llm (generate_policy_queries_prompt (generate_queries_claim_data st))
        = .error e) →
      (generate_queries_node o st).policy_queries = some (.arr [])) ∧
    (∀ (r : String) (j : Json) (l : List Json),
      o.llm (generate_policy_queries_prompt (generate_queries_claim_data st)) = .ok r →
      extract_json r.toList = .ok j →
      (match j with | .obj _ => j.getD "queries" (.arr []) | _ => j) = .arr l →
      (generate_queries_node o st).policy_queries = some (.arr l) ∧
      (l.length ≤ 3 → ∃ l2, (generate_queries_node o st).policy_queries = some (.arr l2)
        ∧ l2.length ≤ 3)) := by
  constructor
  · rintro ⟨e, he⟩
    unfold generate_queries_node generate_policy_queries
    rw [he]
  · intro r j l hr hj hq
    have hmain : (generate_queries_node o st).policy_queries = some (.arr l) := by
      unfold generate_queries_node generate_policy_queries
      simp only []
      rw [hr]
      simp only []
      rw [hj]
      simp only []
      rw [hq]
    exact ⟨hmain, fun h3 => ⟨l, hmain, h3⟩⟩

/-- Witness for the amended C7: an empty decoded query list passes
through unchanged (0 entries, within the 0–3 range). -/
theorem policy_queries_amended_witness :
    (generate_queries_node emptyQueriesOracle { claim_json := "" }).policy_queries
      = some (.arr []) :=
  ((policy_queries_amended emptyQueriesOracle { claim_json := "" }).2 _ _ []
    rfl rfl rfl).1

/-- Characters that can begin a JSON value for Python `json.loads`
(used to show a parse fails immediately on prose). -/
def jsonStartChar (c : Char) : Bool :=
  c = 'n' || c = 't' || c = 'f' || c = '"' || c = '[' || c = '{' || c = '-' || c.isDigit

/-- `parseValue` fails at once when the first character cannot begin a
JSON value. -/
theorem parseValue_head_none (fuel : Nat) (c : Char) (t : List Char)
    (h : jsonStartChar c = false) : parseValue fuel (c :: t) = none := by
  simp only [jsonStartChar, Bool.or_eq_false_iff, decide_eq_false_iff_not] at h
  obtain ⟨⟨⟨⟨⟨⟨⟨hn, ht⟩, hf⟩, hq⟩, hb⟩, hc⟩, hm⟩, hd⟩ := h
  cases fuel with
  | zero => rfl
  | succ n =>
    unfold parseValue
    simp only [if_neg hn, if_neg ht, if_neg hf, if_neg hq, if_neg hb, if_neg hc]
    unfold parseNumber
    simp [hm, hd]

/-- `json.loads` raises when the first non-whitespace character cannot
begin a JSON value. -/
theorem loads_none_of_bad_head (l : List Char) (c : Char) (t : List Char)
    (hw : skipWS l = c :: t) (h : jsonStartChar c = false) : loads l = none := by
  unfold loads
  rw [hw, parseValue_head_none _ c t h]

/-- `dropWhile` over an append when the left part does not vanish. -/
theorem dropWhile_append_left (p : Char → Bool) (l1 l2 : List Char) (c : Char) (t : List Char)
    (h : l1.dropWhile p = c :: t) : (l1 ++ l2).dropWhile p = c :: (t ++ l2) := by
  induction l1 with
  | nil => simp [List.dropWhile] at h
  | cons x xs ih =>
    by_cases hx : p x
    · rw [List.dropWhile_cons_of_pos hx] at h
      rw [List.cons_append, List.dropWhile_cons_of_pos hx]
      exact ih h
    · rw [List.dropWhile_cons_of_neg hx] at h
      rw [List.cons_append, List.dropWhile_cons_of_neg hx]
      cases h
      simp

/-- The fenced-block regex cannot match in text containing no
backtick. -/
theorem fenceSearch_none_of_no_backtick (l : List Char) (h : '`' ∉ l) :
    fenceSearch l = none := by
  induction l with
  | nil => rfl
  | cons c t ih =>
    have hc : c ≠ '`' := fun he => h (he ▸ List.mem_cons_self c t)
    have ht : '`' ∉ t := fun m => h (List.mem_cons_of_mem c m)
    have hpre : "```".toList.isPrefixOf (c :: t) = false := by
      have hb : ('`' == c) = false := by
        simp only [beq_eq_false_iff_ne, ne_eq]
        exact fun h2 => hc h2.symm
      simp [List.isPrefixOf, hb]
    unfold fenceSearch
    rw [hpre]
    simp only [Bool.false_eq_true, if_false]
    exact ih ht

/-- The lazy scan stops at the first closing delimiter. -/
theorem takeThroughFirst_found (cl : Char) (body rest : List Char) (h : cl ∉ body) :
    takeThroughFirst cl (body ++ cl :: rest) = some (body ++ [cl]) := by
  induction body with
  | nil => simp [takeThroughFirst]
  | cons c t ih =>
    have hc : c ≠ cl := fun he => h (he ▸ List.mem_cons_self c t)
    have ht : cl ∉ t := fun m => h (List.mem_cons_of_mem c m)
    rw [List.cons_append]
    unfold takeThroughFirst
    rw [if_neg hc, ih ht]
    rfl

/-- The brace regex scan skips a prefix containing no opening
delimiter. -/
theorem braceSearch_skip (p l : List Char) (h : ∀ c ∈ p, c ≠ '{' ∧ c ≠ '[') :
    braceSearch (p ++ l) = braceSearch l := by
  induction p with
  | nil => rfl
  | cons c t ih =>
    obtain ⟨h1, h2⟩ := h c (List.mem_cons_self c t)
    rw [List.cons_append]
    conv_lhs => unfold braceSearch
    rw [if_neg h1, if_neg h2]
    exact ih (fun c2 m => h c2 (List.mem_cons_of_mem c m))

/-- The anchored lazy group stops at the first closer whose tail
closes the fence. -/
theorem lazyGroup_found (cl : Char) (mid rest : List Char) (h : cl ∉ mid)
    (hc : closesFence rest = true) :
    lazyGroup cl (mid ++ cl :: rest) = some (mid ++ [cl]) := by
  induction mid with
  | nil =>
    unfold lazyGroup
    simp [hc]
  | cons c t ih =>
    have hne : c ≠ cl := fun he => h (he ▸ List.mem_cons_self c t)
    have ht : cl ∉ t := fun m => h (List.mem_cons_of_mem c m)
    rw [List.cons_append]
    conv_lhs => unfold lazyGroup
    rw [if_neg (by simp [hne])]
    rw [ih ht]
    rfl

/-- Group capture inside a canonical fenced block: whitespace is
skipped, and the group is the object up to its unique closing
brace. -/
theorem fenceGroupAt_fenced (mid : List Char) (hmid : '}' ∉ mid) :
    fenceGroupAt ('\n' :: (('{' :: (mid ++ ['}'])) ++ "\n```".toList))
      = some ('{' :: (mid ++ ['}'])) := by
  unfold fenceGroupAt
  have h1 : (('\n' :: (('{' :: (mid ++ ['}'])) ++ "\n```".toList)).dropWhile isRegexWS)
      = '{' :: ((mid ++ ['}']) ++ "\n```".toList) := rfl
  rw [h1]
  simp only [List.append_assoc, List.cons_append, List.nil_append]
  rw [lazyGroup_found '}' mid ("\n```".toList) hmid (by decide)]
  rfl

/-- The fenced-block regex on a canonically fenced object captures
exactly the object text. -/
theorem fenceSearch_fenced (mid : List Char) (hmid : '}' ∉ mid) :
    fenceSearch ("```json\n".toList ++ (('{' :: (mid ++ ['}'])) ++ "\n```".toList))
      = some ('{' :: (mid ++ ['}'])) := by
  rw [show "```json\n".toList ++ (('{' :: (mid ++ ['}'])) ++ "\n```".toList)
    = '`' :: '`' :: '`' :: 'j' :: 's' :: 'o' :: 'n' :: '\n'
        :: (('{' :: (mid ++ ['}'])) ++ "\n```".toList) from rfl]
  conv_lhs => unfold fenceSearch
  simp only []
  rw [if_pos (show ("```".toList.isPrefixOf ('`' :: '`' :: '`' :: 'j' :: 's' :: 'o' :: 'n'
    :: '\n' :: (('{' :: (mid ++ ['}'])) ++ "\n```".toList))) = true from rfl)]
  simp only [List.drop]
  rw [show ("json".toList.isPrefixOf ('j' :: 's' :: 'o' :: 'n' :: '\n'
    :: (('{' :: (mid ++ ['}'])) ++ "\n```".toList))) = true from rfl]
  simp only [if_true, List.drop]
  rw [fenceGroupAt_fenced mid hmid]

/-- C4 amended: for a JSON object text `s = '{' :: mid ++ ['}']` whose
closing brace occurs only at the end and which contains no backtick,
`extract_json` yields the same decoded value on the bare text, on the
text fenced in a ` ```json ` block, and on the text embedded in prose
whose first non-whitespace character cannot begin a JSON value and
which contains no brace, bracket or backtick; and whenever every
fallback strategy fails, a parse error is surfaced rather than a value.
(The unrestricted claim is refuted by `extract_json_shape_cex`: a bare
scalar in prose errors out, and a nested object in prose breaks the
lazy brace regex.) -/
theorem extract_json_three_shapes (mid : List Char) (v : Json) (p1 p2 : List Char)
    (hv : loads ('{' :: (mid ++ ['}'])) = some v)
    (hmid : '}' ∉ mid) (hbt : '`' ∉ mid)
    (hp1head : ∃ c t, skipWS p1 = c :: t ∧ jsonStartChar c = false)
    (hp1 : ∀ c ∈ p1, c ≠ '{' ∧ c ≠ '[' ∧ c ≠ '`')
    (hp2 : '`' ∉ p2) :
    extract_json ('{' :: (mid ++ ['}'])) = .ok v ∧
    extract_json ("```json\n".toList ++ (('{' :: (mid ++ ['}'])) ++ "\n```".toList)) = .ok v ∧
    extract_json (p1 ++ (('{' :: (mid ++ ['}'])) ++ p2)) = .ok v ∧
    (∀ text : List Char, loads text = none → fenceSearch text = none →
      braceSearch text = none →
      extract_json text = .error ("Could not extract JSON from: " ++ text.asString)) := by
  refine ⟨?_, ?_, ?_, ?_⟩
  · unfold extract_json
    rw [hv]
  · have hl : loads ("```json\n".toList ++ (('{' :: (mid ++ ['}'])) ++ "\n```".toList))
        = none := loads_none_of_bad_head _ '`' _ rfl (by decide)
    unfold extract_json
    rw [hl, fenceSearch_fenced mid hmid]
    simp only []
    rw [hv]
  · obtain ⟨c, t, hwp1, hcstart⟩ := hp1head
    have hskip : skipWS (p1 ++ (('{' :: (mid ++ ['}'])) ++ p2))
        = c :: (t ++ (('{' :: (mid ++ ['}'])) ++ p2)) :=
      dropWhile_append_left isJsonWS p1 _ c t hwp1
    have hl : loads (p1 ++ (('{' :: (mid ++ ['}'])) ++ p2)) = none :=
      loads_none_of_bad_head _ c _ hskip hcstart
    have hnb : '`' ∉ (p1 ++ (('{' :: (mid ++ ['}'])) ++ p2)) := by
      intro hm
      rcases List.mem_append.mp hm with h1 | h2
      · exact (hp1 _ h1).2.2 rfl
      rcases List.mem_cons.mp h2 with h3 | h4
      · exact absurd h3 (by decide)
      rcases List.mem_append.mp h4 with h5 | h6
      · rcases List.mem_append.mp h5 with h7 | h8
        · exact hbt h7
        · exact absurd h8 (by decide)
      · exact hp2 h6
    have hf : fenceSearch (p1 ++ (('{' :: (mid ++ ['}'])) ++ p2)) = none :=
      fenceSearch_none_of_no_backtick _ hnb
    have hb : braceSearch (p1 ++ (('{' :: (mid ++ ['}'])) ++ p2))
        = some ('{' :: (mid ++ ['}'])) := by
      rw [braceSearch_skip p1 _ (fun c2 m => ⟨(hp1 c2 m).1, (hp1 c2 m).2.1⟩)]
      rw [show (('{' :: (mid ++ ['}'])) ++ p2) = '{' :: ((mid ++ ['}']) ++ p2) from rfl]
      conv_lhs => unfold braceSearch
      simp only []
      rw [if_pos trivial]
      rw [List.append_assoc]
      simp only [List.singleton_append]
      rw [takeThroughFirst_found '}' mid p2 hmid]
    unfold extract_json
    rw [hl, hf, hb]
    simp only []
    rw [hv]
  · intro text h1 h2 h3
    unfold extract_json
    rw [h1, h2, h3]

/-- Counterexample to C4 as stated: the three-shape agreement fails for
the JSON value `5` (bare parses, prose-embedded raises `ValueError`)
and for the nested object `{"a": {"b": 1}}` (bare and fenced parse,
prose-embedded raises `JSONDecodeError` because the lazy regex
`\{.*?\}` captures only up to the first closing brace). -/
theorem extract_json_shape_cex :
    extract_json "5".toList = .ok (.num 5) ∧
    extract_json "The answer is 5.".toList
      = .error "Could not extract JSON from: The answer is 5." ∧
    extract_json "\x7b\"a\": \x7b\"b\": 1\x7d\x7d".toList
      = .ok (.obj [("a", .obj [("b", .num 1)])]) ∧
    extract_json "text \x7b\"a\": \x7b\"b\": 1\x7d\x7d text".toList
      = .error "JSONDecodeError" ∧
    extract_json "```json\n\x7b\"a\": \x7b\"b\": 1\x7d\x7d\n```".toList
      = .ok (.obj [("a", .obj [("b", .num 1)])]) :=
  ⟨rfl, rfl, rfl, rfl, rfl⟩

/-- Witness for the amended C4 on the flat object `{"a": 1}` embedded
in concrete prose. -/
theorem extract_json_three_shapes_witness :
    extract_json ("Here is the result:\n".toList
      ++ (('{' :: ("\"a\": 1".toList ++ ['}'])) ++ " Thanks.".toList))
      = .ok (.obj [("a", .num 1)]) :=
  (extract_json_three_shapes "\"a\": 1".toList (.obj [("a", .num 1)])
    "Here is the result:\n".toList " Thanks.".toList rfl (by decide) (by decide)
    ⟨'H', _, rfl, by decide⟩ (by decide) (by decide)).2.2.1
